import Mathlib

/-!
Shallow embedding of the date-bucketed entry view of the midiflux repository
(files `internal/ui/date_entries.go` and `internal/ui/date_mark_all_read.go`).

Timestamps are modelled as `Int` seconds.  The reference instant `now` (produced
in Go by `timezone.Now(user.Timezone)`) is threaded as an explicit parameter.
The entry-storage collaborator (`storage` package) is not part of the shown
sources; its query/mutation semantics are modelled from the spec where needed,
each such definition carrying a doc comment saying so.  Everything else is a
direct transcription of the Go handlers.
-/

namespace Midiflux

/-- An entry as the core sees it: identity, publication timestamp (seconds),
read status, and the "globally visible" attribute of its feed. -/
structure Entry where
  id : Int
  published : Int
  status : String
  globallyVisible : Bool
deriving DecidableEq

/-- `model.EntryStatusUnread`. -/
def EntryStatusUnread : String := "unread"

/-- `model.EntryStatusRead`. -/
def EntryStatusRead : String := "read"

/-- Per-user configuration used by the handlers: identity and the configured
sort column/direction (`user.EntryOrder`, `user.EntryDirection`). -/
structure User where
  id : Int
  entryOrder : String
  entryDirection : String
deriving DecidableEq

/-- The query value accumulated by `storage.NewEntryQueryBuilder` and its
chainable builder methods, as used by the two handlers. -/
structure EntryQuery where
  userID : Int
  status : Option String
  globallyVisible : Bool
  sorts : List (String × String)
  afterDate : Option Int
  beforeDate : Option Int
deriving DecidableEq

/-- `h.store.NewEntryQueryBuilder(userID)`. -/
def NewEntryQueryBuilder (userID : Int) : EntryQuery :=
  ⟨userID, none, false, [], none, none⟩

/-- `builder.WithStatus(s)`. -/
def WithStatus (q : EntryQuery) (s : String) : EntryQuery :=
  { q with status := some s }

/-- `builder.WithGloballyVisible()`. -/
def WithGloballyVisible (q : EntryQuery) : EntryQuery :=
  { q with globallyVisible := true }

/-- `builder.WithSorting(column, direction)`; sort clauses apply in call order. -/
def WithSorting (q : EntryQuery) (column direction : String) : EntryQuery :=
  { q with sorts := q.sorts ++ [(column, direction)] }

/-- `builder.AfterPublishedDate(t)`. -/
def AfterPublishedDate (q : EntryQuery) (t : Int) : EntryQuery :=
  { q with afterDate := some t }

/-- `builder.BeforePublishedDate(t)`. -/
def BeforePublishedDate (q : EntryQuery) (t : Int) : EntryQuery :=
  { q with beforeDate := some t }

/-- The two `if afterDate != nil` / `if beforeDate != nil` guards shared by
`countForDateRange` and `fetchForDateRange` in both handlers. -/
def applyDateBounds (q : EntryQuery) (afterDate beforeDate : Option Int) : EntryQuery :=
  let q1 := match afterDate with
    | some t => AfterPublishedDate q t
    | none => q
  match beforeDate with
  | some t => BeforePublishedDate q1 t
  | none => q1

/-- The query built by `countForDateRange` in `showDateEntriesPage`
(`date_entries.go` lines 43-54). -/
def countForDateRangeQuery (userID : Int) (afterDate beforeDate : Option Int) : EntryQuery :=
  applyDateBounds (WithGloballyVisible (WithStatus (NewEntryQueryBuilder userID) EntryStatusUnread))
    afterDate beforeDate

/-- The query built by `fetchForDateRange` in `showDateEntriesPage`
(`date_entries.go` lines 57-70). -/
def fetchForDateRangeQuery (u : User) (afterDate beforeDate : Option Int) : EntryQuery :=
  applyDateBounds
    (WithSorting (WithSorting (WithGloballyVisible (WithStatus (NewEntryQueryBuilder u.id) EntryStatusUnread))
      u.entryOrder u.entryDirection) "id" u.entryDirection)
    afterDate beforeDate

/-! ### Rolling-window boundaries

`date_entries.go` lines 36-39 and `date_mark_all_read.go` lines 32-35 compute
the same four boundary instants from the reference instant `now`. -/

/-- `todayStart := now.Add(-24 * time.Hour)`. -/
def todayStart (now : Int) : Int := now - 24 * 3600

/-- `last2dStart := now.Add(-48 * time.Hour)`. -/
def last2dStart (now : Int) : Int := now - 48 * 3600

/-- `last7dStart := now.Add(-7 * 24 * time.Hour)`. -/
def last7dStart (now : Int) : Int := now - 7 * 24 * 3600

/-- `last30dStart := now.Add(-30 * 24 * time.Hour)`. -/
def last30dStart (now : Int) : Int := now - 30 * 24 * 3600

/-! ### Display path (`showDateEntriesPage`, `date_entries.go`) -/

/-- Count query for the `today` section (`countForDateRange(&todayStart, nil)`, line 73). -/
def countTodayQuery (u : User) (now : Int) : EntryQuery :=
  countForDateRangeQuery u.id (some (todayStart now)) none

/-- Count query for the `last2d` section (line 79). -/
def countLast2dQuery (u : User) (now : Int) : EntryQuery :=
  countForDateRangeQuery u.id (some (last2dStart now)) (some (todayStart now))

/-- Count query for the `last7d` section (line 85). -/
def countLast7dQuery (u : User) (now : Int) : EntryQuery :=
  countForDateRangeQuery u.id (some (last7dStart now)) (some (last2dStart now))

/-- Count query for the `last30d` section (line 91). -/
def countLast30dQuery (u : User) (now : Int) : EntryQuery :=
  countForDateRangeQuery u.id (some (last30dStart now)) (some (last7dStart now))

/-- Count query for the `earlier` section (line 97). -/
def countEarlierQuery (u : User) (now : Int) : EntryQuery :=
  countForDateRangeQuery u.id none (some (last30dStart now))

/-- Fetch query for the `today` section (`fetchForDateRange(&todayStart, nil)`). -/
def fetchTodayQuery (u : User) (now : Int) : EntryQuery :=
  fetchForDateRangeQuery u (some (todayStart now)) none

/-- Fetch query for the `last2d` section. -/
def fetchLast2dQuery (u : User) (now : Int) : EntryQuery :=
  fetchForDateRangeQuery u (some (last2dStart now)) (some (todayStart now))

/-- Fetch query for the `last7d` section. -/
def fetchLast7dQuery (u : User) (now : Int) : EntryQuery :=
  fetchForDateRangeQuery u (some (last7dStart now)) (some (last2dStart now))

/-- Fetch query for the `last30d` section. -/
def fetchLast30dQuery (u : User) (now : Int) : EntryQuery :=
  fetchForDateRangeQuery u (some (last30dStart now)) (some (last7dStart now))

/-- Fetch query for the `earlier` section. -/
def fetchEarlierQuery (u : User) (now : Int) : EntryQuery :=
  fetchForDateRangeQuery u none (some (last30dStart now))

/-- The five count queries `showDateEntriesPage` issues, in source order
(lines 73-101); they are issued for every request, whatever the section. -/
def displayCountQueries (u : User) (now : Int) : List EntryQuery :=
  [countTodayQuery u now, countLast2dQuery u now, countLast7dQuery u now,
   countLast30dQuery u now, countEarlierQuery u now]

/-- The fetch queries `showDateEntriesPage` issues for a given section, in
source order: the `switch section` of lines 107-165, whose `default` branch
(`"all"` or any other value) fetches every section. -/
def displayFetchQueries (u : User) (sect : String) (now : Int) : List EntryQuery :=
  if sect = "today" then [fetchTodayQuery u now]
  else if sect = "last2d" then [fetchLast2dQuery u now]
  else if sect = "last7d" then [fetchLast7dQuery u now]
  else if sect = "last30d" then [fetchLast30dQuery u now]
  else if sect = "earlier" then [fetchEarlierQuery u now]
  else
    [fetchTodayQuery u now, fetchLast2dQuery u now, fetchLast7dQuery u now,
     fetchLast30dQuery u now, fetchEarlierQuery u now]

/-! ### Mark-as-read path (`markDateEntriesAsRead`, `date_mark_all_read.go`) -/

/-- The storage primitive the mark handler ends up invoking. -/
inductive MarkAction where
  /-- `h.store.MarkEntriesAsReadInDateRange(userID, afterDate, beforeDate)`. -/
  | range (afterDate beforeDate : Option Int)
  /-- `h.store.MarkGloballyVisibleFeedsAsRead(userID)`. -/
  | globalMarkAll
deriving DecidableEq

/-- The `switch section` of `markDateEntriesAsRead` (lines 37-70): the five
concrete sections set `(afterDate, beforeDate)`, `"all"` invokes the global
primitive and returns, and any other value leaves both bounds nil — the Go
switch has no `default` case and no case matches, so control falls to line 67
and the range mutation is invoked with `(nil, nil)`. -/
def resolveMarkAction (sect : String) (now : Int) : MarkAction :=
  if sect = "today" then .range (some (todayStart now)) none
  else if sect = "last2d" then .range (some (last2dStart now)) (some (todayStart now))
  else if sect = "last7d" then .range (some (last7dStart now)) (some (last2dStart now))
  else if sect = "last30d" then .range (some (last30dStart now)) (some (last7dStart now))
  else if sect = "earlier" then .range none (some (last30dStart now))
  else if sect = "all" then .globalMarkAll
  else .range none none

/-- Modelled from the spec: `request.QueryStringParam(r, key, defaultValue)`
belongs to the HTTP request collaborator, whose source is not shown; it
returns the query parameter's value when the request carries one and the
supplied default otherwise. -/
def queryStringParam (param : Option String) (defaultValue : String) : String :=
  match param with
  | some v => v
  | none => defaultValue

/-- `section := request.QueryStringParam(r, "section", "all")`
(`date_mark_all_read.go` line 26): how the mark handler resolves the selector
from the request. -/
def markSectionFromRequest (param : Option String) : String :=
  queryStringParam param "all"

/-! ### Storage collaborator semantics

The `storage` package is not among the shown sources; the definitions below
model its contract from the spec, over a store represented as the list of one
user's entries. -/

/-- Membership of a timestamp in a half-open interval with optional bounds.
Modelled from the spec: `AfterPublishedDate` keeps entries published at or
after the bound (older bound inclusive), `BeforePublishedDate` keeps entries
published strictly before the bound (newer bound exclusive); an absent bound
means unbounded. -/
def inDateRange (t : Int) (afterDate beforeDate : Option Int) : Bool :=
  (match afterDate with
    | some a => decide (a ≤ t)
    | none => true)
  && (match beforeDate with
    | some b => decide (t < b)
    | none => true)

/-- Modelled from the spec: whether an entry satisfies every filter of a built
query — status, global visibility, and the optional date bounds. -/
def matchesQuery (e : Entry) (q : EntryQuery) : Bool :=
  (match q.status with
    | some s => decide (e.status = s)
    | none => true)
  && (!q.globallyVisible || e.globallyVisible)
  && inDateRange e.published q.afterDate q.beforeDate

/-- Modelled from the spec: `builder.CountEntries()` returns the number of
entries in the store matching the query's filters. -/
def CountEntries (store : List Entry) (q : EntryQuery) : Nat :=
  (store.filter (fun e => matchesQuery e q)).length

/-- Modelled from the spec: `builder.GetEntries()` returns the entries of the
store matching the query's filters (the ordering demanded by the query's sort
clauses is applied inside the storage engine, whose source is not shown; the
returned set is what this model captures). -/
def GetEntries (store : List Entry) (q : EntryQuery) : List Entry :=
  store.filter (fun e => matchesQuery e q)

/-- Modelled from the spec: `h.store.MarkEntriesAsReadInDateRange(userID,
afterDate, beforeDate)` flips to read every entry whose publication timestamp
lies in the half-open interval. -/
def MarkEntriesAsReadInDateRange (store : List Entry) (afterDate beforeDate : Option Int) :
    List Entry :=
  store.map (fun e =>
    if inDateRange e.published afterDate beforeDate then { e with status := EntryStatusRead }
    else e)

/-- Modelled from the spec: `h.store.MarkGloballyVisibleFeedsAsRead(userID)`
flips to read every entry of a globally visible feed. -/
def MarkGloballyVisibleFeedsAsRead (store : List Entry) : List Entry :=
  store.map (fun e =>
    if e.globallyVisible then { e with status := EntryStatusRead } else e)

/-- The state effect of `markDateEntriesAsRead` for a given selector and
reference instant: the storage primitive chosen by `resolveMarkAction`,
applied to the store. -/
def markDateEntriesAsRead (store : List Entry) (sect : String) (now : Int) : List Entry :=
  match resolveMarkAction sect now with
  | .range a b => MarkEntriesAsReadInDateRange store a b
  | .globalMarkAll => MarkGloballyVisibleFeedsAsRead store

/-! ### Per-bucket counts and the reported total -/

/-- `countUnread := countToday + countLast2d + countLast7d + countLast30d +
countEarlier` (`date_entries.go` line 168). -/
def countUnreadTotal (store : List Entry) (u : User) (now : Int) : Nat :=
  CountEntries store (countTodayQuery u now) + CountEntries store (countLast2dQuery u now)
    + CountEntries store (countLast7dQuery u now) + CountEntries store (countLast30dQuery u now)
    + CountEntries store (countEarlierQuery u now)

/-! ### The display operation as a sequence of collaborator calls

`showDateEntriesPage` issues its count and fetch calls sequentially and
returns on the first error (`html.ServerError` plus `return` after every
call, lines 73-165). -/

/-- One call against the storage collaborator. -/
inductive StoreCall where
  | countCall (q : EntryQuery)
  | fetchCall (q : EntryQuery)
deriving DecidableEq

/-- One successful collaborator response. -/
inductive CallResult where
  | countRes (n : Nat)
  | fetchRes (entries : List Entry)
deriving DecidableEq

/-- The ordered sequence of collaborator calls `showDateEntriesPage` makes:
first the five counts (always, for navigation), then the fetches chosen by
the section switch. -/
def displayCalls (u : User) (sect : String) (now : Int) : List StoreCall :=
  (displayCountQueries u now).map StoreCall.countCall
    ++ (displayFetchQueries u sect now).map StoreCall.fetchCall

/-- Sequential execution of a list of collaborator calls against an oracle,
aborting at the first error exactly as the handler does: returns the calls
actually attempted and either every result or the single surfaced error. -/
def runCalls (oracle : StoreCall → Except String CallResult) :
    List StoreCall → List StoreCall × Except String (List CallResult)
  | [] => ([], .ok [])
  | c :: cs =>
    match oracle c with
    | .error err => ([c], .error err)
    | .ok r =>
      match runCalls oracle cs with
      | (t, .ok rs) => (c :: t, .ok (r :: rs))
      | (t, .error err) => (c :: t, .error err)

/-- The display operation's interaction with the storage collaborator: its
call sequence executed sequentially with abort-on-first-error. -/
def runDisplay (oracle : StoreCall → Except String CallResult) (u : User) (sect : String)
    (now : Int) : List StoreCall × Except String (List CallResult) :=
  runCalls oracle (displayCalls u sect now)

/-- The fetch queries among a call list, in order. -/
def fetchQueriesOf (calls : List StoreCall) : List EntryQuery :=
  calls.filterMap (fun c =>
    match c with
    | .fetchCall q => some q
    | .countCall _ => none)

/-- The count queries among a call list, in order. -/
def countQueriesOf (calls : List StoreCall) : List EntryQuery :=
  calls.filterMap (fun c =>
    match c with
    | .countCall q => some q
    | .fetchCall _ => none)

/-! ## Theorems about the claims -/

/-- C1, counterexample: the claim says an unrecognized selector behaves exactly
as `"all"` and invokes the global primitive; in the code the Go switch has no
`default` case, so `"bogus"` leaves both bounds nil and invokes the range
mutation with an unbounded interval, which differs observably from the global
primitive on a store holding an unread entry of a non-globally-visible feed. -/
theorem c1_bogus_not_global :
    resolveMarkAction "bogus" 0 ≠ MarkAction.globalMarkAll
    ∧ resolveMarkAction "bogus" 0 = MarkAction.range none none
    ∧ markDateEntriesAsRead [⟨1, 0, "unread", false⟩] "bogus" 0
        ≠ markDateEntriesAsRead [⟨1, 0, "unread", false⟩] "all" 0 := by
  decide

/-- C1, amended: for every unrecognized selector (none of the six recognized
values) the mark-as-read operation invokes the range mutation primitive with
both bounds absent — never the global mark-all primitive and never a bounded
per-bucket interval — and never fails on account of the selector. -/
theorem c1_unrecognized_selector (sect : String) (now : Int)
    (h : sect ∉ ["today", "last2d", "last7d", "last30d", "earlier", "all"]) :
    resolveMarkAction sect now = MarkAction.range none none := by
  simp only [List.mem_cons, List.not_mem_nil, or_false, not_or] at h
  obtain ⟨h1, h2, h3, h4, h5, h6⟩ := h
  simp [resolveMarkAction, h1, h2, h3, h4, h5, h6]

/-- C1, witness for the amended theorem at selector `"bogus"`. -/
theorem c1_unrecognized_selector_witness :
    "bogus" ∉ (["today", "last2d", "last7d", "last30d", "earlier", "all"] : List String)
    ∧ resolveMarkAction "bogus" 0 = MarkAction.range none none :=
  ⟨by decide, c1_unrecognized_selector "bogus" 0 (by decide)⟩

/-- C2: for every user and reference instant, each concrete bucket selector
resolves in the mark-as-read operation to a range mutation whose `(after,
before)` interval equals the interval the display operation's count query and
fetch query use for that same bucket, and selector `"all"` resolves to the
global mark-all-globally-visible-feeds-read primitive. -/
theorem c2_mark_interval_matches_display (u : User) (now : Int) :
    (resolveMarkAction "today" now
        = MarkAction.range (countTodayQuery u now).afterDate (countTodayQuery u now).beforeDate
      ∧ (fetchTodayQuery u now).afterDate = (countTodayQuery u now).afterDate
      ∧ (fetchTodayQuery u now).beforeDate = (countTodayQuery u now).beforeDate)
    ∧ (resolveMarkAction "last2d" now
        = MarkAction.range (countLast2dQuery u now).afterDate (countLast2dQuery u now).beforeDate
      ∧ (fetchLast2dQuery u now).afterDate = (countLast2dQuery u now).afterDate
      ∧ (fetchLast2dQuery u now).beforeDate = (countLast2dQuery u now).beforeDate)
    ∧ (resolveMarkAction "last7d" now
        = MarkAction.range (countLast7dQuery u now).afterDate (countLast7dQuery u now).beforeDate
      ∧ (fetchLast7dQuery u now).afterDate = (countLast7dQuery u now).afterDate
      ∧ (fetchLast7dQuery u now).beforeDate = (countLast7dQuery u now).beforeDate)
    ∧ (resolveMarkAction "last30d" now
        = MarkAction.range (countLast30dQuery u now).afterDate (countLast30dQuery u now).beforeDate
      ∧ (fetchLast30dQuery u now).afterDate = (countLast30dQuery u now).afterDate
      ∧ (fetchLast30dQuery u now).beforeDate = (countLast30dQuery u now).beforeDate)
    ∧ (resolveMarkAction "earlier" now
        = MarkAction.range (countEarlierQuery u now).afterDate (countEarlierQuery u now).beforeDate
      ∧ (fetchEarlierQuery u now).afterDate = (countEarlierQuery u now).afterDate
      ∧ (fetchEarlierQuery u now).beforeDate = (countEarlierQuery u now).beforeDate)
    ∧ resolveMarkAction "all" now = MarkAction.globalMarkAll := by
  refine ⟨⟨?_, rfl, rfl⟩, ⟨?_, rfl, rfl⟩, ⟨?_, rfl, rfl⟩, ⟨?_, rfl, rfl⟩, ⟨?_, rfl, rfl⟩, ?_⟩
    <;> simp [resolveMarkAction, countTodayQuery, countLast2dQuery, countLast7dQuery,
      countLast30dQuery, countEarlierQuery, countForDateRangeQuery, applyDateBounds,
      AfterPublishedDate, BeforePublishedDate, WithGloballyVisible, WithStatus,
      NewEntryQueryBuilder]

/-- C5, counterexample: the claim says requests omitting the bucket selector
are not resolved to any default; in the code an omitted selector resolves to
the default `"all"` and the global mark-all primitive is invoked. -/
theorem c5_omitted_selector_defaults :
    markSectionFromRequest none = "all"
    ∧ resolveMarkAction (markSectionFromRequest none) 0 = MarkAction.globalMarkAll := by
  decide

/-- C5, amended: the mark-as-read operation has a default bucket selector: a
request that omits the selector resolves to `"all"`, so the mutation proceeds
with the global mark-all-globally-visible-feeds-read primitive rather than
requiring an explicit selector. -/
theorem c5_default_selector_is_all (now : Int) :
    markSectionFromRequest none = "all"
    ∧ resolveMarkAction (markSectionFromRequest none) now = MarkAction.globalMarkAll := by
  exact ⟨rfl, by simp [markSectionFromRequest, queryStringParam, resolveMarkAction]⟩

/-- C3: at every reference instant, the five bucket intervals used by the
display partition the timeline — every timestamp lies in exactly one bucket's
half-open interval — and a timestamp lying exactly on one of the four
boundary instants belongs to the newer bucket and not the older one. -/
theorem c3_buckets_partition_timeline (u : User) (now t : Int) :
    (displayCountQueries u now).countP (fun q => inDateRange t q.afterDate q.beforeDate) = 1
    ∧ (inDateRange (todayStart now) (countTodayQuery u now).afterDate
          (countTodayQuery u now).beforeDate = true
      ∧ inDateRange (todayStart now) (countLast2dQuery u now).afterDate
          (countLast2dQuery u now).beforeDate = false)
    ∧ (inDateRange (last2dStart now) (countLast2dQuery u now).afterDate
          (countLast2dQuery u now).beforeDate = true
      ∧ inDateRange (last2dStart now) (countLast7dQuery u now).afterDate
          (countLast7dQuery u now).beforeDate = false)
    ∧ (inDateRange (last7dStart now) (countLast7dQuery u now).afterDate
          (countLast7dQuery u now).beforeDate = true
      ∧ inDateRange (last7dStart now) (countLast30dQuery u now).afterDate
          (countLast30dQuery u now).beforeDate = false)
    ∧ (inDateRange (last30dStart now) (countLast30dQuery u now).afterDate
          (countLast30dQuery u now).beforeDate = true
      ∧ inDateRange (last30dStart now) (countEarlierQuery u now).afterDate
          (countEarlierQuery u now).beforeDate = false) := by
  refine ⟨?_, ?_, ?_, ?_, ?_⟩ <;>
    simp [displayCountQueries, countTodayQuery, countLast2dQuery, countLast7dQuery,
      countLast30dQuery, countEarlierQuery, countForDateRangeQuery, applyDateBounds,
      AfterPublishedDate, BeforePublishedDate, WithGloballyVisible, WithStatus,
      NewEntryQueryBuilder, inDateRange, todayStart, last2dStart, last7dStart, last30dStart,
      List.countP_cons, List.countP_nil] <;>
    (try (split_ifs <;> (try simp_all))) <;>
    omega

/-- Pointwise form of the count/sum invariant: an entry matches the unbounded
unread + globally-visible query exactly when it matches exactly one of the
five bucket count queries. -/
theorem matches_bucket_partition (e : Entry) (u : User) (now : Int) :
    ((if matchesQuery e (countTodayQuery u now) then 1 else 0)
      + (if matchesQuery e (countLast2dQuery u now) then 1 else 0)
      + (if matchesQuery e (countLast7dQuery u now) then 1 else 0)
      + (if matchesQuery e (countLast30dQuery u now) then 1 else 0)
      + (if matchesQuery e (countEarlierQuery u now) then 1 else 0) : Nat)
      = (if matchesQuery e (countForDateRangeQuery u.id none none) then 1 else 0) := by
  by_cases h1 : e.status = EntryStatusUnread <;>
  by_cases h2 : e.globallyVisible = true <;>
  simp [matchesQuery, countTodayQuery, countLast2dQuery, countLast7dQuery, countLast30dQuery,
    countEarlierQuery, countForDateRangeQuery, applyDateBounds, AfterPublishedDate,
    BeforePublishedDate, WithGloballyVisible, WithStatus, NewEntryQueryBuilder, inDateRange,
    todayStart, last2dStart, last7dStart, last30dStart, h1, h2] <;>
  (try split_ifs) <;> omega

/-- `CountEntries` on a cons cell. -/
theorem CountEntries_cons (e : Entry) (store : List Entry) (q : EntryQuery) :
    CountEntries (e :: store) q
      = (if matchesQuery e q then 1 else 0) + CountEntries store q := by
  simp only [CountEntries, List.filter_cons]
  split_ifs <;> simp [Nat.add_comm]

/-- C4: for every store state, user, and reference instant, the total unread
count the display reports — the sum of the five per-bucket counts — equals a
single unread + globally-visible count with no date bounds over the same
store. -/
theorem c4_total_equals_unbounded_count (store : List Entry) (u : User) (now : Int) :
    countUnreadTotal store u now = CountEntries store (countForDateRangeQuery u.id none none) := by
  induction store with
  | nil => rfl
  | cons e rest ih =>
    simp only [countUnreadTotal, CountEntries_cons] at *
    have h := matches_bucket_partition e u now
    omega

/-- The sort clauses of every fetch query: the user's preferred column and
direction, then the identity column with the same direction. -/
theorem fetchForDateRangeQuery_sorts (u : User) (a b : Option Int) :
    (fetchForDateRangeQuery u a b).sorts
      = [(u.entryOrder, u.entryDirection), ("id", u.entryDirection)] := by
  cases a <;> cases b <;> rfl

/-- C6: whatever the selector, the display operation issues count queries for
all five buckets; its fetch queries cover exactly the selected bucket when the
selector is a concrete bucket name and every bucket when the selector is
`"all"` or unrecognized; and every fetch query sorts by the user's preferred
column and direction with the identity column as tie-break. -/
theorem c6_display_counts_and_fetches (u : User) (now : Int) (sect : String) :
    countQueriesOf (displayCalls u sect now) = displayCountQueries u now
    ∧ (sect = "today" → fetchQueriesOf (displayCalls u sect now) = [fetchTodayQuery u now])
    ∧ (sect = "last2d" → fetchQueriesOf (displayCalls u sect now) = [fetchLast2dQuery u now])
    ∧ (sect = "last7d" → fetchQueriesOf (displayCalls u sect now) = [fetchLast7dQuery u now])
    ∧ (sect = "last30d" → fetchQueriesOf (displayCalls u sect now) = [fetchLast30dQuery u now])
    ∧ (sect = "earlier" → fetchQueriesOf (displayCalls u sect now) = [fetchEarlierQuery u now])
    ∧ (sect ∉ ["today", "last2d", "last7d", "last30d", "earlier"] →
        fetchQueriesOf (displayCalls u sect now)
          = [fetchTodayQuery u now, fetchLast2dQuery u now, fetchLast7dQuery u now,
             fetchLast30dQuery u now, fetchEarlierQuery u now])
    ∧ (∀ q ∈ displayFetchQueries u sect now,
        q.sorts = [(u.entryOrder, u.entryDirection), ("id", u.entryDirection)]) := by
  refine ⟨?_, ?_, ?_, ?_, ?_, ?_, ?_, ?_⟩
  · unfold displayCalls displayFetchQueries
    split_ifs <;> simp [countQueriesOf, displayCountQueries]
  · intro h; simp [displayCalls, displayFetchQueries, fetchQueriesOf, h]
  · intro h; simp [displayCalls, displayFetchQueries, fetchQueriesOf, h]
  · intro h; simp [displayCalls, displayFetchQueries, fetchQueriesOf, h]
  · intro h; simp [displayCalls, displayFetchQueries, fetchQueriesOf, h]
  · intro h; simp [displayCalls, displayFetchQueries, fetchQueriesOf, h]
  · intro h
    simp only [List.mem_cons, List.not_mem_nil, or_false, not_or] at h
    obtain ⟨h1, h2, h3, h4, h5⟩ := h
    simp [displayCalls, displayFetchQueries, fetchQueriesOf, h1, h2, h3, h4, h5]
  · intro q hq
    unfold displayFetchQueries at hq
    split_ifs at hq <;> simp only [List.mem_cons, List.not_mem_nil, or_false] at hq <;>
      rcases hq with rfl | rfl | rfl | rfl | rfl <;>
      simp [fetchTodayQuery, fetchLast2dQuery, fetchLast7dQuery, fetchLast30dQuery,
        fetchEarlierQuery, fetchForDateRangeQuery_sorts]

/-- A sample user configuration used by the concrete witnesses. -/
def u0 : User := ⟨1, "published_at", "desc"⟩

/-- C6, witness: with selector `"bogus"` the fetch queries cover every bucket. -/
theorem c6_display_counts_and_fetches_witness :
    "bogus" ∉ (["today", "last2d", "last7d", "last30d", "earlier"] : List String)
    ∧ fetchQueriesOf (displayCalls u0 "bogus" 0)
        = [fetchTodayQuery u0 0, fetchLast2dQuery u0 0, fetchLast7dQuery u0 0,
           fetchLast30dQuery u0 0, fetchEarlierQuery u0 0] :=
  ⟨by decide, (c6_display_counts_and_fetches u0 0 "bogus").2.2.2.2.2.2.1 (by decide)⟩

/-- The reference instant `2024-06-15T12:00:00Z` as Unix seconds. -/
def refInstant : Int := 1718452800

/-- An unread, globally visible entry published at `2024-06-14T13:00:00Z`
(23 hours before `refInstant`). -/
def entry23h : Entry := ⟨1, 1718370000, "unread", true⟩

/-- An unread, globally visible entry published at `2024-06-14T11:00:00Z`
(25 hours before `refInstant`). -/
def entry25h : Entry := ⟨2, 1718362800, "unread", true⟩

/-- C7: at reference instant `2024-06-15T12:00:00Z`, the display puts the
entry published 23 hours earlier in the `today` bucket (counted there and
returned by the `today` fetch) and the entry published 25 hours earlier in the
`last2d` bucket. -/
theorem c7_rolling_scenario :
    CountEntries [entry23h, entry25h] (countTodayQuery u0 refInstant) = 1
    ∧ CountEntries [entry23h, entry25h] (countLast2dQuery u0 refInstant) = 1
    ∧ GetEntries [entry23h, entry25h] (fetchTodayQuery u0 refInstant) = [entry23h]
    ∧ GetEntries [entry23h, entry25h] (fetchLast2dQuery u0 refInstant) = [entry25h] := by
  decide

/-- C8: for every store state, selector, and reference instant, running the
mark-as-read operation twice with the same selector leaves every entry in the
same read/unread state as running it once. -/
theorem c8_mark_idempotent (store : List Entry) (sect : String) (now : Int) :
    markDateEntriesAsRead (markDateEntriesAsRead store sect now) sect now
      = markDateEntriesAsRead store sect now := by
  unfold markDateEntriesAsRead
  cases resolveMarkAction sect now with
  | range a b =>
    unfold MarkEntriesAsReadInDateRange
    induction store with
    | nil => rfl
    | cons e rest ih =>
      simp only [List.map_cons, List.cons.injEq]
      refine ⟨?_, ih⟩
      cases hc : inDateRange e.published a b <;> simp [hc]
  | globalMarkAll =>
    unfold MarkGloballyVisibleFeedsAsRead
    induction store with
    | nil => rfl
    | cons e rest ih =>
      simp only [List.map_cons, List.cons.injEq]
      refine ⟨?_, ih⟩
      cases hc : e.globallyVisible <;> simp [hc]

/-- Whether a collaborator call succeeded. -/
def callOk (r : Except String CallResult) : Bool :=
  match r with
  | .ok _ => true
  | .error _ => false

/-- `runCalls` on a list whose prefix succeeds and whose next call fails:
execution attempts exactly the prefix plus the failing call and surfaces that
call's error alone. -/
theorem runCalls_stops_at_error (oracle : StoreCall → Except String CallResult)
    (pre : List StoreCall) (c : StoreCall) (post : List StoreCall) (err : String)
    (hpre : ∀ x ∈ pre, callOk (oracle x) = true) (herr : oracle c = .error err) :
    runCalls oracle (pre ++ c :: post) = (pre ++ [c], Except.error err) := by
  induction pre with
  | nil => simp [runCalls, herr]
  | cons a rest ih =>
    have ha : callOk (oracle a) = true := hpre a (by simp)
    obtain ⟨r, hr⟩ : ∃ r, oracle a = .ok r := by
      cases hoa : oracle a with
      | ok r => exact ⟨r, rfl⟩
      | error er => rw [hoa] at ha; simp [callOk] at ha
    have ih2 := ih (fun x hx => hpre x (by simp [hx]))
    simp [runCalls, hr, ih2]

/-- C9: for every oracle behaviour of the storage collaborator, if the calls
the display makes succeed up to some point and the next one fails, the display
operation stops at the failing call — the attempted calls are exactly the
successful prefix plus the failing call, the later bucket queries are never
attempted, and the outcome is that single error with no partial results. -/
theorem c9_display_aborts_on_error (oracle : StoreCall → Except String CallResult)
    (u : User) (sect : String) (now : Int)
    (pre : List StoreCall) (c : StoreCall) (post : List StoreCall) (err : String)
    (hsplit : displayCalls u sect now = pre ++ c :: post)
    (hpre : ∀ x ∈ pre, callOk (oracle x) = true)
    (herr : oracle c = .error err) :
    runDisplay oracle u sect now = (pre ++ [c], Except.error err) := by
  unfold runDisplay
  rw [hsplit]
  exact runCalls_stops_at_error oracle pre c post err hpre herr

/-- C9, witness: an oracle whose very first count query fails makes the
display attempt only that first call and surface its error. -/
theorem c9_display_aborts_on_error_witness :
    displayCalls u0 "today" 0
      = [] ++ StoreCall.countCall (countTodayQuery u0 0) :: (displayCalls u0 "today" 0).drop 1
    ∧ runDisplay (fun _ => Except.error "db") u0 "today" 0
        = ([] ++ [StoreCall.countCall (countTodayQuery u0 0)], Except.error "db") :=
  ⟨by decide,
    c9_display_aborts_on_error (fun _ => Except.error "db") u0 "today" 0 []
      (StoreCall.countCall (countTodayQuery u0 0)) ((displayCalls u0 "today" 0).drop 1) "db"
      (by decide) (by simp) rfl⟩

/-- C10: every unread, globally visible entry published after the reference
instant matches the `today` bucket's count query (whose interval has no upper
bound), is returned by the `today` fetch when present in the store, and is
therefore included in the per-bucket `today` count and in the reported total
unread count. -/
theorem c10_future_entry_counted_in_today (u : User) (now : Int) (store : List Entry)
    (e : Entry) (hst : e.status = EntryStatusUnread) (hv : e.globallyVisible = true)
    (hfuture : now < e.published) (hmem : e ∈ store) :
    matchesQuery e (countTodayQuery u now) = true
    ∧ e ∈ GetEntries store (fetchTodayQuery u now)
    ∧ 1 ≤ CountEntries store (countTodayQuery u now)
    ∧ 1 ≤ countUnreadTotal store u now := by
  have hmc : matchesQuery e (countTodayQuery u now) = true := by
    simp [matchesQuery, countTodayQuery, countForDateRangeQuery, applyDateBounds,
      AfterPublishedDate, WithGloballyVisible, WithStatus, NewEntryQueryBuilder, inDateRange,
      todayStart, hst, hv]
    omega
  have hmf : matchesQuery e (fetchTodayQuery u now) = true := by
    simp [matchesQuery, fetchTodayQuery, fetchForDateRangeQuery, applyDateBounds,
      AfterPublishedDate, WithSorting, WithGloballyVisible, WithStatus, NewEntryQueryBuilder,
      inDateRange, todayStart, hst, hv]
    omega
  have hcount : 1 ≤ CountEntries store (countTodayQuery u now) := by
    have : e ∈ store.filter (fun x => matchesQuery x (countTodayQuery u now)) :=
      List.mem_filter.mpr ⟨hmem, hmc⟩
    exact List.length_pos_of_mem this
  refine ⟨hmc, List.mem_filter.mpr ⟨hmem, hmf⟩, hcount, ?_⟩
  unfold countUnreadTotal
  omega

/-- An unread, globally visible entry published after reference instant 0. -/
def futureEntry : Entry := ⟨1, 100, "unread", true⟩

/-- C10, witness: a future-dated entry at a concrete store and instant. -/
theorem c10_future_entry_counted_in_today_witness :
    (futureEntry.status = EntryStatusUnread ∧ futureEntry.globallyVisible = true
      ∧ (0 : Int) < futureEntry.published ∧ futureEntry ∈ [futureEntry])
    ∧ (matchesQuery futureEntry (countTodayQuery u0 0) = true
      ∧ futureEntry ∈ GetEntries [futureEntry] (fetchTodayQuery u0 0)
      ∧ 1 ≤ CountEntries [futureEntry] (countTodayQuery u0 0)
      ∧ 1 ≤ countUnreadTotal [futureEntry] u0 0) :=
  ⟨⟨rfl, rfl, by decide, by simp⟩,
    c10_future_entry_counted_in_today u0 0 [futureEntry] futureEntry rfl rfl (by decide)
      (by simp)⟩

end Midiflux
